import Mathlib

/-!
Shallow embedding of the Webeact core: the hook registry / frame manager of
`src/Lib/hooks/hookObject.js` and the reactive signal graph of
`src/Lib/Signals.js`. JS `Map`s are modelled as insertion-ordered association
lists, JS `Set`s as insertion-ordered duplicate-free lists, JS values as the
inductive `JSValue`, and `Date.now()` as an explicit `now : Nat` argument.
Operations that can `throw` return an `HRes` carrying the error together with
the state left behind by the aborted call.
-/

namespace Webeact

section MapHelpers

variable {κ β : Type} [DecidableEq κ]

/-- Lookup in a JS `Map` modelled as an association list (first match wins). -/
def mapGet (k : κ) : List (κ × β) → Option β
  | [] => none
  | e :: rest => if e.1 = k then some e.2 else mapGet k rest

/-- JS `Map.prototype.set`: replace in place when the key is present, append otherwise. -/
def mapSet (k : κ) (v : β) : List (κ × β) → List (κ × β)
  | [] => [(k, v)]
  | e :: rest => if e.1 = k then (k, v) :: rest else e :: mapSet k v rest

/-- JS `Map.prototype.delete`: remove the entry with the given key. -/
def mapDelete (k : κ) : List (κ × β) → List (κ × β)
  | [] => []
  | e :: rest => if e.1 = k then mapDelete k rest else e :: mapDelete k rest

end MapHelpers

section SetHelpers

variable {α : Type} [DecidableEq α]

/-- JS `Set.prototype.add`: append if not already a member. -/
def setAdd (x : α) (l : List α) : List α :=
  if x ∈ l then l else l ++ [x]

/-- JS `Set.prototype.delete`: remove the element. -/
def setDelete (x : α) : List α → List α
  | [] => []
  | y :: rest => if y = x then setDelete x rest else y :: setDelete x rest

end SetHelpers

/-! SimpleMutex (`hookObject.js` lines 23-67). `queue` holds the identities of
suspended `acquire()` callers in arrival order; `grants` is an observation log
recording, in order, every caller whose `resolve` has fired (immediately on an
uncontended `acquire`, or on being shifted out of the queue by `release`). -/

structure MutexState where
  locked : Bool
  queue : List Nat
  grants : List Nat
deriving DecidableEq, Repr

/-- SimpleMutex.acquire, called by caller `c`: grab the lock when free,
otherwise append to the FIFO queue. -/
def mtxAcquire (c : Nat) (s : MutexState) : MutexState :=
  if s.locked then { s with queue := s.queue ++ [c] }
  else { s with locked := true, grants := s.grants ++ [c] }

/-- SimpleMutex.tryAcquire: lock when free, otherwise report failure. -/
def mtxTryAcquire (s : MutexState) : Option MutexState :=
  if s.locked then none else some { s with locked := true }

/-- SimpleMutex.release: resume the next queued waiter (lock stays held by it),
or mark the lock free when nobody waits. -/
def mtxRelease (s : MutexState) : MutexState :=
  match s.queue with
  | [] => { s with locked := false }
  | c :: rest => { s with queue := rest, grants := s.grants ++ [c] }

/-- Fold `mtxAcquire` over a list of callers, in order. -/
def acquireAll (cs : List Nat) (s : MutexState) : MutexState :=
  cs.foldl (fun st c => mtxAcquire c st) s

/-- Iterate `mtxRelease` n times. -/
def releaseN : Nat → MutexState → MutexState
  | 0, s => s
  | n + 1, s => releaseN n (mtxRelease s)

/-! JS values stored as hook data. `vObj` keeps own enumerable string keys in
insertion order, matching spread/merge semantics. -/

inductive JSValue where
  | vUndefined
  | vNull
  | vBool (b : Bool)
  | vNum (n : Int)
  | vStr (s : String)
  | vObj (fields : List (String × JSValue))

/-- Spread-merge `{...a, ...b}`: keys of `a` in order, each key of `b`
overwriting in place or appended. -/
def mergeFields (a b : List (String × JSValue)) : List (String × JSValue) :=
  b.foldl (fun acc e => mapSet e.1 e.2 acc) a

/-- HookType (`hookObject.js` lines 6-18), one constructor per Symbol. -/
inductive HookType where
  | stateHook
  | effectHook
  | transitionHook
  | localStorageHook
  | referenceHook
  | eventListenerHook
  | mediaQueryHook
  | callbackHook
  | memoHook
  | reducerHook
  | idHook
deriving DecidableEq, Repr

/-- Entry of the global registry `Hook._hooks` (constructor, lines 144-151). -/
structure HookData where
  type : HookType
  index : Nat
  data : JSValue
  created : Nat
  lastModified : Option Nat
  frameId : Option String
  frameIndex : Option Nat

/-- Hook handle: the instance fields `this.type` / `this.idx`. -/
structure HookRef where
  type : HookType
  idx : Nat
deriving DecidableEq, Repr

/-- Frame record stored in `Hook._frames` (startFrame, lines 402-418).
`hookCount` is only set by `endFrame`. -/
structure Frame where
  id : String
  created : Nat
  lastUsed : Nat
  hooks : List (Nat × HookRef)
  options : List (String × JSValue)
  renderCount : Nat
  isActive : Bool
  hookCount : Option Nat

/-- Static state of class `Hook`. -/
structure HookGlobal where
  hooks : List (Nat × HookData)
  hookCounter : Nat
  mutex : MutexState
  typeIndex : List (HookType × List Nat)
  frames : List (String × Frame)
  currentFrame : Option String
  currentFrameHookIndex : Nat

/-- Initial values of the static fields of class `Hook`. -/
def emptyGlobal : HookGlobal :=
  { hooks := []
    hookCounter := 0
    mutex := { locked := false, queue := [], grants := [] }
    typeIndex := []
    frames := []
    currentFrame := none
    currentFrameHookIndex := 0 }

/-- Errors thrown by the hook registry. -/
inductive HookError where
  | lockContention
  | kindMismatch (frameId : String) (frameIndex : Nat) (expected got : HookType)
  | invalidPatchTarget
  | frameReentrancy (activeId : String)
  | invalidHook (idx : Nat)
deriving DecidableEq, Repr

/-- Result of a registry operation: value or thrown error, each together with
the state the operation leaves behind. -/
inductive HRes (α : Type) where
  | ok (val : α) (g : HookGlobal)
  | err (e : HookError) (g : HookGlobal)

/-- State left behind by an operation, error or not. -/
def HRes.stateOf {α : Type} : HRes α → HookGlobal
  | .ok _ g => g
  | .err _ g => g

/-- Whether the operation returned normally. -/
def HRes.isOk {α : Type} : HRes α → Bool
  | .ok _ _ => true
  | .err _ _ => false

/-- Hook._getFrameHook (lines 474-490): look up the handle registered at
(frameId, frameIndex); throw on a kind mismatch. -/
def getFrameHook (g : HookGlobal) (frameId : String) (frameIndex : Nat)
    (expectedType : HookType) : Except HookError (Option HookRef) :=
  match mapGet frameId g.frames with
  | none => .ok none
  | some frame =>
    match mapGet frameIndex frame.hooks with
    | none => .ok none
    | some inst =>
      if inst.type = expectedType then .ok (some inst)
      else .error (.kindMismatch frameId frameIndex expectedType inst.type)

/-- Hook._registerFrameHook (lines 498-503). -/
def frameRegister (frameId : String) (frameIndex : Nat) (inst : HookRef)
    (frames : List (String × Frame)) : List (String × Frame) :=
  match mapGet frameId frames with
  | some f => mapSet frameId { f with hooks := mapSet frameIndex inst f.hooks } frames
  | none => frames

/-- Update of `Hook._typeIndex` in the constructor (lines 156-159). -/
def tiAdd (t : HookType) (idx : Nat) (ti : List (HookType × List Nat)) :
    List (HookType × List Nat) :=
  match mapGet t ti with
  | none => mapSet t (setAdd idx []) ti
  | some s => mapSet t (setAdd idx s) ti

/-- Update of `Hook._typeIndex` in destroy (lines 281-288): drop the index and
remove the per-type set entirely when it becomes empty. -/
def tiRemove (t : HookType) (idx : Nat) (ti : List (HookType × List Nat)) :
    List (HookType × List Nat) :=
  match mapGet t ti with
  | none => ti
  | some s =>
    match setDelete idx s with
    | [] => mapDelete t ti
    | s2 => mapSet t s2 ti

/-- Locked creation path of the Hook constructor (lines 133-168). -/
def hookNewLocked (info : JSValue) (hookType : HookType) (now : Nat)
    (g : HookGlobal) : HRes HookRef :=
  match mtxTryAcquire g.mutex with
  | none => .err .lockContention g
  | some m1 =>
    let idx := g.hookCounter
    let hd : HookData :=
      { type := hookType
        index := idx
        data := info
        created := now
        lastModified := none
        frameId := g.currentFrame
        frameIndex :=
          match g.currentFrame with
          | some _ => some g.currentFrameHookIndex
          | none => none }
    let hooks2 := mapSet idx hd g.hooks
    let ti2 := tiAdd hookType idx g.typeIndex
    match g.currentFrame with
    | some fid =>
      .ok ⟨hookType, idx⟩
        { g with
            hooks := hooks2
            hookCounter := idx + 1
            typeIndex := ti2
            frames := frameRegister fid g.currentFrameHookIndex ⟨hookType, idx⟩ g.frames
            currentFrameHookIndex := g.currentFrameHookIndex + 1
            mutex := mtxRelease m1 }
    | none =>
      .ok ⟨hookType, idx⟩
        { g with
            hooks := hooks2
            hookCounter := idx + 1
            typeIndex := ti2
            mutex := mtxRelease m1 }

/-- Hook constructor (lines 119-169): reuse the handle registered at the
current (frame, positional index) when one exists, otherwise fall through to
the locked creation path. -/
def hookNew (info : JSValue) (hookType : HookType) (now : Nat) (g : HookGlobal) :
    HRes HookRef :=
  match g.currentFrame with
  | some fid =>
    match getFrameHook g fid g.currentFrameHookIndex hookType with
    | .error e => .err e g
    | .ok (some existing) =>
      .ok existing { g with currentFrameHookIndex := g.currentFrameHookIndex + 1 }
    | .ok none => hookNewLocked info hookType now g
  | none => hookNewLocked info hookType now g

/-- Hook.get (lines 175-184): lock-free read; `undefined` when the slot is
missing or its kind does not match the handle. -/
def hookGet (h : HookRef) (g : HookGlobal) : JSValue :=
  match mapGet h.idx g.hooks with
  | some hi => if hi.type = h.type then hi.data else .vUndefined
  | none => .vUndefined

/-- Hook.set (lines 190-208): locked full replacement of the data. -/
def hookSet (h : HookRef) (info : JSValue) (now : Nat) (g : HookGlobal) : HRes Unit :=
  match mtxTryAcquire g.mutex with
  | none => .err .lockContention g
  | some m1 =>
    match mapGet h.idx g.hooks with
    | some hi =>
      if hi.type = h.type then
        .ok ()
          { g with
              hooks := mapSet h.idx { hi with data := info, lastModified := some now } g.hooks
              mutex := mtxRelease m1 }
      else .err (.invalidHook h.idx) { g with mutex := mtxRelease m1 }
    | none => .err (.invalidHook h.idx) { g with mutex := mtxRelease m1 }

/-- Hook.patch (lines 236-242): shallow merge, only when the current data is a
non-null object. -/
def hookPatch (h : HookRef) (updates : List (String × JSValue)) (now : Nat)
    (g : HookGlobal) : HRes Unit :=
  match hookGet h g with
  | .vObj fields => hookSet h (.vObj (mergeFields fields updates)) now g
  | _ => .err .invalidPatchTarget g

/-- Hook.isValid (lines 261-264). -/
def hookIsValid (h : HookRef) (g : HookGlobal) : Bool :=
  match mapGet h.idx g.hooks with
  | some hi => decide (hi.type = h.type ∧ hi.index = h.idx)
  | none => false

/-- Hook.destroy (lines 269-293): locked removal from the registry and the
type index; silently a no-op when the handle is no longer valid. -/
def hookDestroy (h : HookRef) (g : HookGlobal) : HRes Unit :=
  match mtxTryAcquire g.mutex with
  | none => .err .lockContention g
  | some m1 =>
    if hookIsValid h g then
      .ok ()
        { g with
            hooks := mapDelete h.idx g.hooks
            typeIndex := tiRemove h.type h.idx g.typeIndex
            mutex := mtxRelease m1 }
    else .ok () { g with mutex := mtxRelease m1 }

/-- Hook.startFrame (lines 393-419). -/
def startFrame (frameId : String) (opts : List (String × JSValue)) (now : Nat)
    (g : HookGlobal) : HRes Unit :=
  match g.currentFrame with
  | some active => .err (.frameReentrancy active) g
  | none =>
    match mapGet frameId g.frames with
    | none =>
      .ok ()
        { g with
            currentFrame := some frameId
            currentFrameHookIndex := 0
            frames := mapSet frameId
              { id := frameId
                created := now
                lastUsed := now
                hooks := []
                options := opts
                renderCount := 0
                isActive := true
                hookCount := none } g.frames }
    | some f =>
      .ok ()
        { g with
            currentFrame := some frameId
            currentFrameHookIndex := 0
            frames := mapSet frameId
              { f with lastUsed := now, renderCount := f.renderCount + 1, isActive := true }
              g.frames }

/-- Statistics object returned by `endFrame`. -/
structure FrameStats where
  frameId : String
  hooksUsed : Nat
  renderCount : Nat
deriving DecidableEq, Repr

/-- Hook.endFrame (lines 425-448): `null` when no frame is active. -/
def endFrame (g : HookGlobal) : Option FrameStats × HookGlobal :=
  match g.currentFrame with
  | none => (none, g)
  | some fid =>
    let frames2 :=
      match mapGet fid g.frames with
      | some f => mapSet fid { f with isActive := false, hookCount := some g.currentFrameHookIndex } g.frames
      | none => g.frames
    let stats : FrameStats :=
      { frameId := fid
        hooksUsed := g.currentFrameHookIndex
        renderCount :=
          match mapGet fid g.frames with
          | some f => f.renderCount
          | none => 0 }
    (some stats,
      { g with frames := frames2, currentFrame := none, currentFrameHookIndex := 0 })

/-! Reactive graph (`Signals.js`). Subscribers and dependencies are identified
by opaque numeric ids; each operation additionally returns the ordered list of
subscribers whose `update` was invoked during the call. -/

/-- State of a `State` signal (`Signals.js` lines 18-96), value type `α`.
`isWatched` starts out false (the JS field is initially undefined). -/
structure SignalState (α : Type) where
  value : α
  subscribers : List Nat
  watchCount : Nat
  isWatched : Bool

/-- Lifecycle callback firings observable during `State.set`. -/
inductive LifecycleEvent where
  | watchedEvt
  | unwatchedEvt
deriving DecidableEq, Repr

/-- State.set (lines 58-77): equality-gated store, synchronous notification of
the current subscriber list in insertion order, then watched/unwatched
lifecycle handling. Returns (new state, notified subscribers, lifecycle log). -/
def signalSet {α : Type} (equals : α → α → Bool) (v : α) (s : SignalState α) :
    SignalState α × List Nat × List LifecycleEvent :=
  if equals s.value v then (s, [], [])
  else
    if s.watchCount > 0 ∧ s.isWatched = false then
      ({ s with value := v, isWatched := true }, s.subscribers, [.watchedEvt])
    else if s.watchCount = 0 ∧ s.isWatched = true then
      ({ s with value := v, isWatched := false }, s.subscribers, [.unwatchedEvt])
    else ({ s with value := v }, s.subscribers, [])

/-- State of a `Computed` (`Signals.js` lines 102-211). -/
structure ComputedState (α : Type) where
  value : α
  stale : Bool
  dependencies : List Nat
  subscribers : List Nat

/-- Computed.update (lines 170-186). `_evaluate`'s outcome is supplied as the
recomputed value `evalValue` together with the rebuilt dependency set
`evalDeps` (the reads performed by the compute callback). Returns the new
state and the list of subscribers notified. -/
def computedUpdate {α : Type} (equals : α → α → Bool) (evalValue : α)
    (evalDeps : List Nat) (source : Nat) (c : ComputedState α) :
    ComputedState α × List Nat :=
  if c.stale = false ∧ source ∈ c.dependencies then
    if equals c.value evalValue then
      ({ c with dependencies := evalDeps, stale := true }, [])
    else
      ({ c with dependencies := evalDeps, value := evalValue, stale := true },
        c.subscribers)
  else
    ({ c with stale := true }, [])

/-- State of a `Watcher` (`Signals.js` lines 231-305). `queue` counts the
microtasks currently scheduled by `update`; `runCount` counts completed
executions of `run()`'s body. -/
structure WatcherState where
  active : Bool
  pending : Bool
  sources : List Nat
  queue : Nat
  runCount : Nat
deriving DecidableEq, Repr

/-- Watcher.update (lines 278-293): ignored when inactive or the source is not
tracked; otherwise schedules a single microtask unless one is already pending. -/
def watcherUpdate (source : Nat) (w : WatcherState) : WatcherState :=
  if w.active = false ∨ source ∉ w.sources then w
  else if w.pending then w
  else { w with pending := true, queue := w.queue + 1 }

/-- Watcher.stop (lines 298-304). -/
def watcherStop (w : WatcherState) : WatcherState :=
  { w with active := false, sources := [] }

/-- Execution of one microtask scheduled by `update` (lines 286-291): checks
the active flag, clears pending, and runs the callback, which rebuilds the
source set to `newSources`. -/
def runScheduledTask (newSources : List Nat) (w : WatcherState) : WatcherState :=
  if w.queue = 0 then w
  else
    let w1 := { w with queue := w.queue - 1 }
    if w1.active then
      { w1 with pending := false, sources := newSources, runCount := w1.runCount + 1 }
    else w1

/-- Fold `watcherUpdate` over a list of synchronous notifications, in order. -/
def updateAll (ss : List Nat) (w : WatcherState) : WatcherState :=
  ss.foldl (fun st s => watcherUpdate s st) w

/-! Helper lemmas about the JS Map / mutex models. -/

theorem mapGet_mapSet_self {κ β : Type} [DecidableEq κ] (k : κ) (v : β)
    (l : List (κ × β)) : mapGet k (mapSet k v l) = some v := by
  induction l with
  | nil => simp [mapGet, mapSet]
  | cons e rest ih =>
    by_cases h : e.1 = k
    · simp [mapSet, h, mapGet]
    · simp [mapSet, h, mapGet, ih]

theorem mapGet_mapDelete_self {κ β : Type} [DecidableEq κ] (k : κ)
    (l : List (κ × β)) : mapGet k (mapDelete k l) = none := by
  induction l with
  | nil => rfl
  | cons e rest ih =>
    by_cases h : e.1 = k
    · simp [mapDelete, h, ih]
    · simp [mapDelete, h, mapGet, ih]

theorem acquireAll_of_locked (cs : List Nat) (m : MutexState) (h : m.locked = true) :
    acquireAll cs m = { m with queue := m.queue ++ cs } := by
  induction cs generalizing m with
  | nil => simp [acquireAll]
  | cons c rest ih =>
    have h1 : mtxAcquire c m = { m with queue := m.queue ++ [c] } := by
      simp [mtxAcquire, h]
    have h2 : acquireAll (c :: rest) m = acquireAll rest (mtxAcquire c m) := rfl
    rw [h2, h1, ih { m with queue := m.queue ++ [c] } h]
    simp

theorem releaseN_grants (n : Nat) (m : MutexState) :
    (releaseN n m).grants = m.grants ++ m.queue.take n := by
  induction n generalizing m with
  | zero => simp [releaseN]
  | succ n ih =>
    have h1 : releaseN (n + 1) m = releaseN n (mtxRelease m) := rfl
    rw [h1, ih]
    cases hq : m.queue with
    | nil => simp [mtxRelease, hq]
    | cons c rest => simp [mtxRelease, hq]

/-- C6: for every sequence of callers that call acquire() while the mutex is
held, the callers are queued and, as the holder and each successive holder
releases, they are granted the lock in FIFO order: the i-th caller to enqueue
is the i-th to be resumed. -/
theorem mutex_fifo (cs : List Nat) (m : MutexState)
    (hl : m.locked = true) (hq : m.queue = []) :
    (acquireAll cs m).queue = cs ∧
    (releaseN cs.length (acquireAll cs m)).grants = m.grants ++ cs ∧
    ∀ i, i < cs.length →
      (releaseN (i + 1) (acquireAll cs m)).grants = m.grants ++ cs.take (i + 1) := by
  have ha := acquireAll_of_locked cs m hl
  refine ⟨?_, ?_, ?_⟩
  · rw [ha]; simp [hq]
  · rw [ha, releaseN_grants]; simp [hq]
  · intro i hi
    rw [ha, releaseN_grants]; simp [hq]

/-- Witness for C6 at a held mutex and three queued callers. -/
theorem mutex_fifo_witness :
    (acquireAll [10, 20, 30] ⟨true, [], []⟩).queue = [10, 20, 30] ∧
    (releaseN 3 (acquireAll [10, 20, 30] ⟨true, [], []⟩)).grants = [10, 20, 30] := by
  have h := mutex_fifo [10, 20, 30] ⟨true, [], []⟩ rfl rfl
  exact ⟨h.1, h.2.1⟩

/-- C9: calling endFrame() when no frame is active returns null and leaves the
whole registry and frame-manager state unchanged. -/
theorem endFrame_no_active (g : HookGlobal) (h : g.currentFrame = none) :
    endFrame g = (none, g) := by
  simp [endFrame, h]

/-- Witness for C9 on the pristine global state. -/
theorem endFrame_no_active_witness : endFrame emptyGlobal = (none, emptyGlobal) :=
  endFrame_no_active emptyGlobal rfl

/-- Computed.update on an already stale Computed is a pure no-op apart from
re-marking the stale flag. -/
theorem computedUpdate_of_stale {α : Type} (equals : α → α → Bool) (ev : α)
    (deps : List Nat) (s : Nat) (c : ComputedState α) (h : c.stale = true) :
    computedUpdate equals ev deps s c = ({ c with stale := true }, []) := by
  unfold computedUpdate
  rw [if_neg]
  intro hc
  rw [hc.1] at h
  exact Bool.noConfusion h

/-- C2: Computed.update(s) recomputes only when the stale flag is false and s
is a tracked dependency; on recomputation it propagates to its own subscribers
exactly when equals(old, new) is false; the stale flag is true at the end of
every update call, so a second notification arriving before re-subscription
triggers no recomputation and no propagation. -/
theorem computed_update_spec {α : Type} (equals : α → α → Bool) (ev ev2 : α)
    (deps deps2 : List Nat) (s s2 : Nat) (c : ComputedState α) :
    (computedUpdate equals ev deps s c).1.stale = true ∧
    (¬(c.stale = false ∧ s ∈ c.dependencies) →
      computedUpdate equals ev deps s c = ({ c with stale := true }, [])) ∧
    (c.stale = false → s ∈ c.dependencies →
      (computedUpdate equals ev deps s c).2 =
        if equals c.value ev then [] else c.subscribers) ∧
    computedUpdate equals ev2 deps2 s2 (computedUpdate equals ev deps s c).1 =
      ({ (computedUpdate equals ev deps s c).1 with stale := true }, []) := by
  have hst : (computedUpdate equals ev deps s c).1.stale = true := by
    unfold computedUpdate
    split_ifs <;> rfl
  refine ⟨hst, ?_, ?_, ?_⟩
  · intro h
    unfold computedUpdate
    rw [if_neg h]
  · intro h1 h2
    unfold computedUpdate
    rw [if_pos ⟨h1, h2⟩]
    split_ifs <;> rfl
  · exact computedUpdate_of_stale equals ev2 deps2 s2 _ hst

/-- Witness for C2: a fresh (non-stale) Computed with dependency 1 and
subscribers 5, 6 propagates to exactly those subscribers when the recomputed
value 3 differs from the old value 0. -/
theorem computed_update_spec_witness :
    (computedUpdate (fun a b : Int => a == b) 3 [2] 1
        ⟨0, false, [1], [5, 6]⟩).2 = [5, 6] := by
  have h := (computed_update_spec (fun a b : Int => a == b) 3 3 [2] [2] 1 1
      ⟨0, false, [1], [5, 6]⟩).2.2.1 rfl (by simp)
  exact h.trans (by decide)

/-- C5: Signal.set with equals(current, v) true performs no notification and
leaves all subscriber-visible state unchanged; otherwise every subscriber in
the current subscriber set is notified synchronously in insertion order and
the new value is stored. -/
theorem signal_set_spec {α : Type} (equals : α → α → Bool) (v : α)
    (s : SignalState α) :
    (equals s.value v = true → signalSet equals v s = (s, [], [])) ∧
    (equals s.value v = false →
      (signalSet equals v s).2.1 = s.subscribers ∧
      (signalSet equals v s).1.value = v ∧
      (signalSet equals v s).1.subscribers = s.subscribers) := by
  constructor
  · intro h
    simp [signalSet, h]
  · intro h
    unfold signalSet
    rw [if_neg (by simp [h])]
    split_ifs <;> exact ⟨rfl, rfl, rfl⟩

/-- Witness for C5: setting an identical value on a signal with subscribers
1, 2 is a complete no-op. -/
theorem signal_set_spec_witness :
    signalSet (fun a b : Int => a == b) 5 ⟨5, [1, 2], 0, false⟩ =
      (⟨5, [1, 2], 0, false⟩, [], []) :=
  (signal_set_spec (fun a b : Int => a == b) 5 ⟨5, [1, 2], 0, false⟩).1 rfl

theorem updateAll_of_pending (ss : List Nat) (w : WatcherState)
    (h : w.pending = true) : updateAll ss w = w := by
  induction ss with
  | nil => rfl
  | cons s rest ih =>
    have hw : watcherUpdate s w = w := by
      unfold watcherUpdate
      split_ifs <;> rfl
    have h2 : updateAll (s :: rest) w = updateAll rest (watcherUpdate s w) := rfl
    rw [h2, hw, ih]

/-- C4: any number of synchronous update notifications from tracked sources
within one tick schedule exactly one re-run, executed when the microtask is
drained after the synchronous block; update is ignored entirely when the
watcher is inactive or the source untracked; and a re-run already scheduled
when stop() is called executes as a no-op because the task checks the active
flag. -/
theorem watcher_batching (w : WatcherState) (ss ns : List Nat)
    (h1 : w.active = true) (h2 : w.pending = false) (h3 : w.queue = 0)
    (h4 : ss ≠ []) (h5 : ∀ s ∈ ss, s ∈ w.sources) :
    (updateAll ss w).queue = 1 ∧
    (updateAll ss w).runCount = w.runCount ∧
    (∀ s v, v.active = false ∨ s ∉ v.sources → watcherUpdate s v = v) ∧
    (runScheduledTask ns (updateAll ss w)).runCount = w.runCount + 1 ∧
    (runScheduledTask ns (updateAll ss w)).queue = 0 ∧
    (runScheduledTask ns (watcherStop (updateAll ss w))).runCount = w.runCount ∧
    (runScheduledTask ns (watcherStop (updateAll ss w))).queue = 0 := by
  obtain ⟨s0, rest, rfl⟩ : ∃ s0 rest, ss = s0 :: rest := by
    cases ss with
    | nil => exact absurd rfl h4
    | cons a b => exact ⟨a, b, rfl⟩
  have hs0 : s0 ∈ w.sources := h5 s0 (by simp)
  have hw1 : watcherUpdate s0 w = { w with pending := true, queue := w.queue + 1 } := by
    simp [watcherUpdate, h1, h2, hs0]
  have hall : updateAll (s0 :: rest) w = { w with pending := true, queue := w.queue + 1 } := by
    have hc : updateAll (s0 :: rest) w = updateAll rest (watcherUpdate s0 w) := rfl
    rw [hc, hw1, updateAll_of_pending rest _ rfl]
  rw [hall]
  refine ⟨by simp [h3], rfl, ?_, ?_, ?_, ?_, ?_⟩
  · intro s v hv
    unfold watcherUpdate
    rw [if_pos hv]
  · simp [runScheduledTask, h1, h3]
  · simp [runScheduledTask, h1, h3]
  · simp [watcherStop, runScheduledTask, h3]
  · simp [watcherStop, runScheduledTask, h3]

/-- Witness for C4: three synchronous writes seen by one active watcher
schedule exactly one task, and draining it runs the watcher once. -/
theorem watcher_batching_witness :
    (updateAll [1, 2, 3] ⟨true, false, [1, 2, 3], 0, 0⟩).queue = 1 ∧
    (runScheduledTask [1] (updateAll [1, 2, 3] ⟨true, false, [1, 2, 3], 0, 0⟩)).runCount = 1 := by
  have h := watcher_batching ⟨true, false, [1, 2, 3], 0, 0⟩ [1, 2, 3] [1]
      rfl rfl rfl (by simp) (by simp)
  exact ⟨h.1, h.2.2.2.1⟩

/-! Hook registry claims. -/

/-- C1: a hook construction replayed at a (frame, positional index) where a
handle with the requested kind is already registered returns that existing
handle unchanged, creates no registry slot, leaves the mutex untouched,
advances the frame's positional counter by one, and leaves the slot's data
exactly as it was. -/
theorem hook_reuse (g : HookGlobal) (fid : String) (f : Frame) (h : HookRef)
    (info : JSValue) (now : Nat)
    (h1 : g.currentFrame = some fid)
    (h2 : mapGet fid g.frames = some f)
    (h3 : mapGet g.currentFrameHookIndex f.hooks = some h) :
    hookNew info h.type now g =
      .ok h { g with currentFrameHookIndex := g.currentFrameHookIndex + 1 } ∧
    hookGet h { g with currentFrameHookIndex := g.currentFrameHookIndex + 1 } =
      hookGet h g := by
  have hg : getFrameHook g fid g.currentFrameHookIndex h.type = .ok (some h) := by
    simp [getFrameHook, h2, h3]
  constructor
  · simp only [hookNew, h1, hg]
  · rfl

/-- First-pass state: start frame "f", create one state hook inside it. -/
def c1Pass1 : HookGlobal :=
  (hookNew (.vNum 7) .stateHook 1 ((startFrame "f" [] 0 emptyGlobal).stateOf)).stateOf

/-- Second-pass state: end the first pass and start frame "f" again. -/
def c1Pass2 : HookGlobal :=
  (startFrame "f" [] 2 (endFrame c1Pass1).2).stateOf

/-- Witness for C1: replaying the state-hook construction in the second pass
of frame "f" returns the handle created in the first pass and only advances
the cursor. -/
theorem hook_reuse_witness :
    hookNew (.vNum 99) .stateHook 3 c1Pass2 =
      .ok ⟨.stateHook, 0⟩
        { c1Pass2 with currentFrameHookIndex := c1Pass2.currentFrameHookIndex + 1 } :=
  (hook_reuse c1Pass2 "f" _ ⟨.stateHook, 0⟩ (.vNum 99) 3 rfl rfl rfl).1

/-- C3: constructing a hook at an occupied (frame, positional index) with a
different kind throws the kind-mismatch error and leaves the whole state,
including the existing slot, unchanged. -/
theorem hook_kind_mismatch (g : HookGlobal) (fid : String) (f : Frame)
    (h : HookRef) (k2 : HookType) (info : JSValue) (now : Nat)
    (h1 : g.currentFrame = some fid)
    (h2 : mapGet fid g.frames = some f)
    (h3 : mapGet g.currentFrameHookIndex f.hooks = some h)
    (h4 : k2 ≠ h.type) :
    hookNew info k2 now g =
      .err (.kindMismatch fid g.currentFrameHookIndex k2 h.type) g := by
  have hg : getFrameHook g fid g.currentFrameHookIndex k2 =
      .error (.kindMismatch fid g.currentFrameHookIndex k2 h.type) := by
    simp only [getFrameHook, h2, h3]
    rw [if_neg (fun hh => h4 hh.symm)]
  simp only [hookNew, h1, hg]

/-- Witness for C3: replaying frame "f" with an effect hook at position 0,
where pass one registered a state hook, throws the mismatch error. -/
theorem hook_kind_mismatch_witness :
    hookNew (.vNum 1) .effectHook 4 c1Pass2 =
      .err (.kindMismatch "f" 0 .effectHook .stateHook) c1Pass2 :=
  hook_kind_mismatch c1Pass2 "f" _ ⟨.stateHook, 0⟩ .effectHook (.vNum 1) 4
    rfl rfl rfl (by decide)

/-- Any successful hook construction performed while a frame is active
advances the frame's positional cursor by exactly one. -/
theorem hookNew_advances_cursor (g : HookGlobal) (fid : String)
    (h : g.currentFrame = some fid) (info : JSValue) (k : HookType) (now : Nat)
    (r : HookRef) (g2 : HookGlobal) (he : hookNew info k now g = .ok r g2) :
    g2.currentFrameHookIndex = g.currentFrameHookIndex + 1 := by
  simp only [hookNew, h] at he
  cases hg : getFrameHook g fid g.currentFrameHookIndex k with
  | error e =>
    simp only [hg] at he
    cases he
  | ok o =>
    cases o with
    | some ex =>
      simp only [hg] at he
      cases he
      rfl
    | none =>
      simp only [hg, hookNewLocked] at he
      cases hm : mtxTryAcquire g.mutex with
      | none =>
        simp only [hm] at he
        cases he
      | some m1 =>
        simp only [hm, h] at he
        cases he
        rfl

/-- C7 counterexample: the very first startFrame for an id succeeds but leaves
that frame's render counter at 0, not incremented to 1. -/
theorem startFrame_first_render_cex :
    (startFrame "f" [] 0 emptyGlobal).isOk = true ∧
    Option.map Frame.renderCount
        (mapGet "f" (startFrame "f" [] 0 emptyGlobal).stateOf.frames) = some 0 :=
  ⟨rfl, rfl⟩

/-- C7 (amended): every successful startFrame(id) resets the positional cursor
to zero and makes id the current frame; the very first startFrame for id
creates the frame with render counter 0, while each subsequent startFrame
increments the stored counter by one; and every successful hook creation or
reuse while the frame is active advances the cursor by exactly one. -/
theorem startFrame_spec (g : HookGlobal) (fid : String)
    (opts : List (String × JSValue)) (now : Nat) (h1 : g.currentFrame = none) :
    (startFrame fid opts now g).isOk = true ∧
    (startFrame fid opts now g).stateOf.currentFrame = some fid ∧
    (startFrame fid opts now g).stateOf.currentFrameHookIndex = 0 ∧
    Option.map Frame.renderCount
        (mapGet fid (startFrame fid opts now g).stateOf.frames) =
      some (match mapGet fid g.frames with
            | none => 0
            | some f => f.renderCount + 1) ∧
    (∀ (g2 : HookGlobal) (fid2 : String) (info : JSValue) (k : HookType)
        (now2 : Nat) (r : HookRef) (g3 : HookGlobal),
      g2.currentFrame = some fid2 →
      hookNew info k now2 g2 = .ok r g3 →
      g3.currentFrameHookIndex = g2.currentFrameHookIndex + 1) := by
  cases hf : mapGet fid g.frames with
  | none =>
    refine ⟨?_, ?_, ?_, ?_, ?_⟩
    · simp [startFrame, h1, hf, HRes.isOk]
    · simp [startFrame, h1, hf, HRes.stateOf]
    · simp [startFrame, h1, hf, HRes.stateOf]
    · simp [startFrame, h1, hf, HRes.stateOf, mapGet_mapSet_self]
    · intro g2 fid2 info k now2 r g3 hcf he
      exact hookNew_advances_cursor g2 fid2 hcf info k now2 r g3 he
  | some f =>
    refine ⟨?_, ?_, ?_, ?_, ?_⟩
    · simp [startFrame, h1, hf, HRes.isOk]
    · simp [startFrame, h1, hf, HRes.stateOf]
    · simp [startFrame, h1, hf, HRes.stateOf]
    · simp [startFrame, h1, hf, HRes.stateOf, mapGet_mapSet_self]
    · intro g2 fid2 info k now2 r g3 hcf he
      exact hookNew_advances_cursor g2 fid2 hcf info k now2 r g3 he

/-- Witness for C7 (amended): the first startFrame for "g" succeeds and
stores a frame whose render counter is 0. -/
theorem startFrame_spec_witness :
    (startFrame "g" [] 5 emptyGlobal).isOk = true ∧
    Option.map Frame.renderCount
        (mapGet "g" (startFrame "g" [] 5 emptyGlobal).stateOf.frames) = some 0 := by
  have h := startFrame_spec emptyGlobal "g" [] 5 rfl
  exact ⟨h.1, h.2.2.2.1⟩

/-- C8: patch raises an error exactly when the hook's current data is not an
object, leaving the state untouched in that case; on object data it performs
a shallow merge visible to a subsequent read. -/
theorem hook_patch_spec (h : HookRef) (updates : List (String × JSValue))
    (now : Nat) (g : HookGlobal) (hm : g.mutex.locked = false) :
    (∀ fields, hookGet h g = .vObj fields →
      (hookPatch h updates now g).isOk = true ∧
      hookGet h (hookPatch h updates now g).stateOf =
        .vObj (mergeFields fields updates)) ∧
    ((∀ fields, hookGet h g ≠ .vObj fields) →
      hookPatch h updates now g = .err .invalidPatchTarget g) := by
  constructor
  · intro fields hf
    have hmg0 := hf
    unfold hookGet at hmg0
    cases hmg : mapGet h.idx g.hooks with
    | none =>
      simp only [hmg] at hmg0
      cases hmg0
    | some hi =>
      simp only [hmg] at hmg0
      by_cases ht : hi.type = h.type
      · rw [if_pos ht] at hmg0
        have hma : mtxTryAcquire g.mutex = some { g.mutex with locked := true } := by
          simp [mtxTryAcquire, hm]
        have hset : hookSet h (.vObj (mergeFields fields updates)) now g =
            .ok ()
              { g with
                  hooks := mapSet h.idx
                    { hi with data := .vObj (mergeFields fields updates),
                              lastModified := some now } g.hooks
                  mutex := mtxRelease { g.mutex with locked := true } } := by
          simp only [hookSet, hma, hmg, ht, if_true]
        have hpatch : hookPatch h updates now g =
            hookSet h (.vObj (mergeFields fields updates)) now g := by
          simp only [hookPatch, hf]
        rw [hpatch, hset]
        refine ⟨rfl, ?_⟩
        simp [HRes.stateOf, hookGet, mapGet_mapSet_self, ht]
      · rw [if_neg ht] at hmg0
        exact absurd hmg0 (by intro hc; cases hc)
  · intro hno
    cases hv : hookGet h g with
    | vObj fields => exact absurd hv (hno fields)
    | vUndefined => simp only [hookPatch, hv]
    | vNull => simp only [hookPatch, hv]
    | vBool b => simp only [hookPatch, hv]
    | vNum n => simp only [hookPatch, hv]
    | vStr s => simp only [hookPatch, hv]

/-- State after the C8 scenario's create: a state hook holding
value 0 and a listeners object. -/
def c8Setup : HookGlobal :=
  (hookNew (.vObj [("value", .vNum 0), ("listeners", .vObj [])]) .stateHook 0
      emptyGlobal).stateOf

/-- Witness for C8: the spec scenario create, patch with value 1, then read
returns value 1 with the listeners field preserved. -/
theorem hook_patch_spec_witness :
    (hookPatch ⟨.stateHook, 0⟩ [("value", .vNum 1)] 1 c8Setup).isOk = true ∧
    hookGet ⟨.stateHook, 0⟩
        (hookPatch ⟨.stateHook, 0⟩ [("value", .vNum 1)] 1 c8Setup).stateOf =
      .vObj [("value", .vNum 1), ("listeners", .vObj [])] := by
  have h := (hook_patch_spec ⟨.stateHook, 0⟩ [("value", .vNum 1)] 1 c8Setup rfl).1
      [("value", .vNum 0), ("listeners", .vObj [])] rfl
  exact h

/-- Releasing a lock just taken by tryAcquire on a free, unqueued mutex
restores the mutex exactly. -/
theorem mtxRelease_after_tryAcquire (m : MutexState) (hl : m.locked = false)
    (hq : m.queue = []) : mtxRelease { m with locked := true } = m := by
  cases m with
  | mk l q gr =>
    have hl2 : l = false := hl
    have hq2 : q = [] := hq
    subst hl2
    subst hq2
    rfl

/-- Destroying an invalid handle with the mutex free is a complete no-op. -/
theorem hookDestroy_invalid (h : HookRef) (g : HookGlobal)
    (hl : g.mutex.locked = false) (hq : g.mutex.queue = [])
    (hv : hookIsValid h g = false) : hookDestroy h g = .ok () g := by
  have hma : mtxTryAcquire g.mutex = some { g.mutex with locked := true } := by
    simp [mtxTryAcquire, hl]
  simp only [hookDestroy, hma, hv, Bool.false_eq_true, if_false]
  rw [mtxRelease_after_tryAcquire g.mutex hl hq]

/-- C10: with the mutex free, destroy succeeds; afterwards the handle fails
the validity check, and a second destroy also succeeds while leaving the hook
map and the type index exactly as the first destroy left them. -/
theorem hook_destroy_idempotent (h : HookRef) (g : HookGlobal)
    (hl : g.mutex.locked = false) (hq : g.mutex.queue = []) :
    (hookDestroy h g).isOk = true ∧
    hookIsValid h (hookDestroy h g).stateOf = false ∧
    hookDestroy h (hookDestroy h g).stateOf = .ok () (hookDestroy h g).stateOf := by
  have hma : mtxTryAcquire g.mutex = some { g.mutex with locked := true } := by
    simp [mtxTryAcquire, hl]
  cases hv : hookIsValid h g with
  | true =>
    have e1 : hookDestroy h g =
        .ok () { g with hooks := mapDelete h.idx g.hooks,
                        typeIndex := tiRemove h.type h.idx g.typeIndex } := by
      simp only [hookDestroy, hma, hv, if_true]
      rw [mtxRelease_after_tryAcquire g.mutex hl hq]
    have hv2 : hookIsValid h
        { g with hooks := mapDelete h.idx g.hooks,
                 typeIndex := tiRemove h.type h.idx g.typeIndex } = false := by
      simp [hookIsValid, mapGet_mapDelete_self]
    refine ⟨by rw [e1]; rfl, ?_, ?_⟩
    · rw [e1]
      exact hv2
    · rw [e1]
      exact hookDestroy_invalid h _ hl hq hv2
  | false =>
    have e1 : hookDestroy h g = .ok () g := hookDestroy_invalid h g hl hq hv
    refine ⟨by rw [e1]; rfl, ?_, ?_⟩
    · rw [e1]
      exact hv
    · rw [e1]
      exact e1

/-- Registry holding one effect hook, for the C10 witness. -/
def c10Setup : HookGlobal :=
  (hookNew (.vNum 4) .effectHook 0 emptyGlobal).stateOf

/-- Witness for C10: destroying the sole hook of a fresh registry twice
succeeds both times and leaves the registry unchanged after the first. -/
theorem hook_destroy_idempotent_witness :
    (hookDestroy ⟨.effectHook, 0⟩ c10Setup).isOk = true ∧
    hookIsValid ⟨.effectHook, 0⟩ (hookDestroy ⟨.effectHook, 0⟩ c10Setup).stateOf = false ∧
    hookDestroy ⟨.effectHook, 0⟩ (hookDestroy ⟨.effectHook, 0⟩ c10Setup).stateOf =
      .ok () (hookDestroy ⟨.effectHook, 0⟩ c10Setup).stateOf :=
  hook_destroy_idempotent ⟨.effectHook, 0⟩ c10Setup rfl rfl

end Webeact
